import Mathlib

/-!
# Verification of the LexiBridge Intelligence document-analysis pipeline

Shallow embedding of `src/backend/main.py` (the document-analysis
orchestration pipeline): prompt construction (`ANALYSIS_PROMPT`, the
`text[:8000]` truncation), the two-attempt Groq extraction in
`analyze_document_with_ai`, the markdown-fence cleanup and `json.loads`
normalization, the `/api/analyze` endpoint (`analyze_document`) with its
MongoDB writes modelled as explicit state passing, and the
`/api/analyze/stream` endpoint (`analyze_document_stream`) with its
`simulate_progress` event sequence.

Modelling conventions:
* Python `dict` values produced by `json.loads` are modelled by the
  inductive `Json` below; JSON numbers keep their source literal (the
  pipeline never computes with them).
* The Groq client is an oracle (`GenService`): each of the two
  `chat.completions.create` call sites is a function from the
  (systemInstruction, userPrompt) pair it is given to either the returned
  message content or the raised exception's message.  Model name and
  temperature are fixed constants in the source and are not consumed by
  anything modelled here.
* Exceptions are values of `PyExc`; `str(e)` of a FastAPI/Starlette
  `HTTPException` is `"<status>: <detail>"`, of any other exception its
  message.
* MongoDB is a `DBState` (users and documents collections) threaded
  explicitly; `insert_one` may fail (oracle argument), `update_one` on the
  users collection is modelled as always succeeding.
* `datetime.now(...)` is an opaque `now : String` parameter.
* Pydantic response-model type validation (e.g. `List[str]` coercion) is
  not modelled; the response fields carry the extracted `Json` values.
  Theorems asserting a success response therefore carry shape
  hypotheses (`isStrList`/`isDict`) on the validated field values,
  restricting to runs where that validation would also succeed; the
  empty defaults always satisfy them, so absent fields impose nothing.
-/

/-- A parsed JSON document, as produced by Python's `json.loads`.
Numbers keep their literal text; the analysis pipeline never does
arithmetic on them. -/
inductive Json where
  | null : Json
  | bool (b : Bool) : Json
  | num (lit : String) : Json
  | str (s : String) : Json
  | arr (elems : List Json) : Json
  | obj (members : List (String × Json)) : Json

/-- Last occurrence wins, as in a Python dict built by `json.loads`
(later duplicate keys overwrite earlier ones). -/
def getKeyLast (kvs : List (String × Json)) (k : String) : Option Json :=
  match kvs with
  | [] => none
  | (k2, v) :: rest =>
    match getKeyLast rest k with
    | some w => some w
    | none => if k2 = k then some v else none

/-- Python `dict.get(k, default)`. -/
def pyDictGet (kvs : List (String × Json)) (k : String) (d : Json) : Json :=
  (getKeyLast kvs k).getD d

/-! ## A JSON parser modelling `json.loads`

Strict-mode `json.loads`: JSON whitespace is space, tab, CR, LF (exactly
`Char.isWhitespace`); numbers follow the JSON grammar
`-?(0|[1-9][0-9]*)(\.[0-9]+)?([eE][+-]?[0-9]+)?`; strings support the
standard escapes and `\uXXXX`; raw control characters in strings are
rejected.  Diagnostics mirror the Python messages minus positions. -/

/-- Value of a hex digit, for `\uXXXX` escapes. -/
def hexVal (c : Char) : Option Nat :=
  if '0' ≤ c ∧ c ≤ '9' then some (c.toNat - 48)
  else if 'a' ≤ c ∧ c ≤ 'f' then some (c.toNat - 87)
  else if 'A' ≤ c ∧ c ≤ 'F' then some (c.toNat - 55)
  else none

/-- Body of a JSON string after the opening quote; returns the decoded
string and the input after the closing quote. -/
def parseStrBody : Nat → List Char → List Char → Except String (String × List Char)
  | 0, _, _ => .error "Unterminated string"
  | _ + 1, [], _ => .error "Unterminated string"
  | fuel + 1, c :: rest, acc =>
    if c = '"' then .ok (String.mk acc.reverse, rest)
    else if c = '\\' then
      match rest with
      | [] => .error "Unterminated string"
      | e :: rest2 =>
        if e = '"' then parseStrBody fuel rest2 ('"' :: acc)
        else if e = '\\' then parseStrBody fuel rest2 ('\\' :: acc)
        else if e = '/' then parseStrBody fuel rest2 ('/' :: acc)
        else if e = 'b' then parseStrBody fuel rest2 (Char.ofNat 8 :: acc)
        else if e = 'f' then parseStrBody fuel rest2 (Char.ofNat 12 :: acc)
        else if e = 'n' then parseStrBody fuel rest2 ('\n' :: acc)
        else if e = 'r' then parseStrBody fuel rest2 ('\r' :: acc)
        else if e = 't' then parseStrBody fuel rest2 ('\t' :: acc)
        else if e = 'u' then
          match rest2 with
          | h1 :: h2 :: h3 :: h4 :: rest3 =>
            match hexVal h1, hexVal h2, hexVal h3, hexVal h4 with
            | some a, some b, some c2, some d =>
              parseStrBody fuel rest3 (Char.ofNat (a * 4096 + b * 256 + c2 * 16 + d) :: acc)
            | _, _, _, _ => .error "Invalid uXXXX escape"
          | _ => .error "Invalid uXXXX escape"
        else .error "Invalid escape"
    else if c.toNat < 32 then .error "Invalid control character"
    else parseStrBody fuel rest (c :: acc)

/-- A JSON number literal, per the `json` module's NUMBER_RE regex:
integer part `0` or `[1-9][0-9]*`, optional `.digits`, optional
exponent.  Returns the matched literal and the rest of the input. -/
def parseNumber (cs : List Char) : Except String (Json × List Char) :=
  let (negPart, cs1) :=
    match cs with
    | c :: r => if c = '-' then (['-'], r) else (([] : List Char), cs)
    | [] => ([], cs)
  match cs1 with
  | [] => .error "Expecting value"
  | c :: r =>
    if ¬ c.isDigit then .error "Expecting value"
    else
      let (ip, cs2) :=
        if c = '0' then ([c], r)
        else (cs1.takeWhile Char.isDigit, cs1.dropWhile Char.isDigit)
      let (fp, cs3) :=
        match cs2 with
        | d :: r2 =>
          if d = '.' then
            match r2.takeWhile Char.isDigit with
            | [] => (([] : List Char), cs2)
            | ds => ('.' :: ds, r2.dropWhile Char.isDigit)
          else ([], cs2)
        | [] => ([], cs2)
      let (ep, cs4) :=
        match cs3 with
        | d :: r2 =>
          if d = 'e' ∨ d = 'E' then
            let (sgn, r3) :=
              match r2 with
              | s :: r4 => if s = '+' ∨ s = '-' then ([s], r4) else (([] : List Char), r2)
              | [] => ([], r2)
            match r3.takeWhile Char.isDigit with
            | [] => (([] : List Char), cs3)
            | ds => (d :: (sgn ++ ds), r3.dropWhile Char.isDigit)
          else ([], cs3)
        | [] => ([], cs3)
      .ok (Json.num (String.mk (negPart ++ ip ++ fp ++ ep)), cs4)

mutual

/-- One JSON value, leading whitespace allowed; returns it and the rest
of the input. -/
def parseVal (fuel : Nat) (cs : List Char) : Except String (Json × List Char) :=
  match fuel with
  | 0 => .error "Nesting too deep"
  | fuel + 1 =>
    match cs.dropWhile Char.isWhitespace with
    | [] => .error "Expecting value"
    | c :: rest =>
      if c = Char.ofNat 123 then parseObjMembers fuel rest []
      else if c = '[' then parseArrElems fuel rest []
      else if c = '"' then
        match parseStrBody (rest.length + 1) rest [] with
        | .ok (s, r) => .ok (Json.str s, r)
        | .error e => .error e
      else if c = 't' then
        match rest with
        | 'r' :: 'u' :: 'e' :: r => .ok (Json.bool true, r)
        | _ => .error "Expecting value"
      else if c = 'f' then
        match rest with
        | 'a' :: 'l' :: 's' :: 'e' :: r => .ok (Json.bool false, r)
        | _ => .error "Expecting value"
      else if c = 'n' then
        match rest with
        | 'u' :: 'l' :: 'l' :: r => .ok (Json.null, r)
        | _ => .error "Expecting value"
      else if c = '-' ∨ c.isDigit then parseNumber (c :: rest)
      else .error "Expecting value"

/-- Elements of an array, after the opening bracket (and after the comma,
for `acc ≠ []`). -/
def parseArrElems (fuel : Nat) (cs : List Char) (acc : List Json) :
    Except String (Json × List Char) :=
  match fuel with
  | 0 => .error "Nesting too deep"
  | fuel + 1 =>
    let cs1 := cs.dropWhile Char.isWhitespace
    match acc, cs1 with
    | [], ']' :: r => .ok (Json.arr [], r)
    | _, _ =>
      match parseVal fuel cs1 with
      | .error e => .error e
      | .ok (v, r) =>
        match r.dropWhile Char.isWhitespace with
        | ']' :: r2 => .ok (Json.arr (v :: acc).reverse, r2)
        | ',' :: r2 => parseArrElems fuel r2 (v :: acc)
        | _ => .error "Expecting comma delimiter"

/-- Members of an object, after the opening brace (and after the comma,
for `acc ≠ []`). -/
def parseObjMembers (fuel : Nat) (cs : List Char) (acc : List (String × Json)) :
    Except String (Json × List Char) :=
  match fuel with
  | 0 => .error "Nesting too deep"
  | fuel + 1 =>
    let cs1 := cs.dropWhile Char.isWhitespace
    match acc, cs1 with
    | [], c :: r =>
      if c = Char.ofNat 125 then .ok (Json.obj [], r)
      else parseObjMember fuel cs1 acc
    | _, _ => parseObjMember fuel cs1 acc

/-- One `"key": value` member followed by `,` or the closing brace. -/
def parseObjMember (fuel : Nat) (cs1 : List Char) (acc : List (String × Json)) :
    Except String (Json × List Char) :=
  match fuel with
  | 0 => .error "Nesting too deep"
  | fuel + 1 =>
    match cs1 with
    | '"' :: r =>
      match parseStrBody (r.length + 1) r [] with
      | .error e => .error e
      | .ok (k, r2) =>
        match r2.dropWhile Char.isWhitespace with
        | ':' :: r3 =>
          match parseVal fuel r3 with
          | .error e => .error e
          | .ok (v, r4) =>
            match r4.dropWhile Char.isWhitespace with
            | c :: r5 =>
              if c = Char.ofNat 125 then .ok (Json.obj ((k, v) :: acc).reverse, r5)
              else if c = ',' then parseObjMembers fuel r5 ((k, v) :: acc)
              else .error "Expecting comma delimiter"
            | [] => .error "Expecting comma delimiter"
        | _ => .error "Expecting colon delimiter"
    | _ => .error "Expecting property name enclosed in double quotes"

end

/-- `json.loads` on a character list: one value, then only trailing
whitespace.  The fuel `2 * length + 4` bounds the recursion depth; every
two units of fuel consume at least one input character, so it never runs
out on any input. -/
def parseJsonL (cs : List Char) : Except String Json :=
  match parseVal (2 * cs.length + 4) cs with
  | .error e => .error e
  | .ok (j, rest) =>
    if rest.dropWhile Char.isWhitespace = [] then .ok j else .error "Extra data"

/-! ## Response cleanup (`analyze_document_with_ai`, lines 204-215)

`response_text = content.strip()`, then the three sequential fence
checks (`startswith("```json")` / `startswith("```")` /
`endswith("```")`), then a final `.strip()`, then `json.loads`. -/

/-- The backtick character. -/
def backquote : Char := Char.ofNat 96

/-- The characters of the fence marker (three backticks). -/
def FENCE : List Char := [backquote, backquote, backquote]

/-- The characters of the marker with language tag (three backticks then
`json`). -/
def FJSON : List Char := FENCE ++ ['j', 's', 'o', 'n']

/-- Python `s.startswith(pre)`. -/
def startsWithL (pre cs : List Char) : Bool := cs.take pre.length == pre

/-- Python `s.endswith(suf)`. -/
def endsWithL (suf cs : List Char) : Bool := cs.reverse.take suf.length == suf.reverse

/-- Python `s[:-n]`. -/
def dropRightL (n : Nat) (cs : List Char) : List Char := cs.take (cs.length - n)

/-- Python `s.strip()` (whitespace from both ends). -/
def pyStripL (cs : List Char) : List Char :=
  ((cs.dropWhile Char.isWhitespace).reverse.dropWhile Char.isWhitespace).reverse

/-- The cleanup applied to the model's message content before
`json.loads`: strip, drop a leading ```` ```json ````, drop a leading
```` ``` ````, drop a trailing ```` ``` ````, strip again (the four
steps are sequential `if`s in the source, exactly in this order). -/
def cleanResponse (cs0 : List Char) : List Char :=
  let s1 := pyStripL cs0
  let s2 := if startsWithL FJSON s1 then s1.drop 7 else s1
  let s3 := if startsWithL FENCE s2 then s2.drop 3 else s2
  let s4 := if endsWithL FENCE s3 then dropRightL 3 s3 else s3
  pyStripL s4

/-- ResponseNormalizer: cleanup followed by `json.loads`; an `.error`
is the `JSONDecodeError` diagnostic. -/
def normalizeText (content : String) : Except String Json :=
  parseJsonL (cleanResponse content.data)

/-! ## Prompt construction (`ANALYSIS_PROMPT`, lines 113-163)

`ANALYSIS_PROMPT.format(text=text[:8000])`: the template text before and
after the `{text}` placeholder, with the `{{`/`}}` escapes rendered to
single braces (written `\x7b`/`\x7d` below). -/

/-- The template text before the `{text}` placeholder. -/
def PROMPT_PREFIX : String :=
  "You are a legal document analysis AI specialized in land and property documents from Andhra Pradesh, India.\n\nAnalyze the following document text and extract key information. Provide your response in JSON format with the following structure:\n\n\x7b\n    \"simplified_summary\": [\n        \"Bullet point 1: Key finding in simple language\",\n        \"Bullet point 2: Another important point\",\n        ...\n    ],\n    \"legal_entities\": \x7b\n        \"survey_numbers\": [\"survey number 1\", \"survey number 2\", ...],\n        \"ownership_details\": \x7b\n            \"owner_name\": \"name if found\",\n            \"co_owners\": [\"name1\", \"name2\", ...],\n            \"ownership_type\": \"individual/joint/company/etc\",\n            \"transfer_history\": \"brief description if mentioned\"\n        \x7d,\n        \"land_extents\": \x7b\n            \"total_area\": \"area in acres/hectares\",\n            \"area_breakdown\": \"detailed breakdown if available\",\n            \"location\": \"village/mandal/district details\"\n        \x7d,\n        \"encumbrances\": [\n            \"Any mortgages, liens, or legal claims mentioned\",\n            ...\n        ],\n        \"risks\": [\n            \"Potential legal risks or concerns identified\",\n            ...\n        ],\n        \"missing_data\": [\n        \"Important information that appears to be missing\",\n        ...\n        ],\n        \"notable_clauses\": [\n            \"Important clauses or conditions mentioned\",\n            ...\n        ]\n    \x7d\n\x7d\n\nDocument text to analyze:\n"

/-- The template text after the `{text}` placeholder. -/
def PROMPT_SUFFIX : String :=
  "\n\nIMPORTANT: \n- Respond ONLY with valid JSON, no additional text\n- Use simple, non-legal language in simplified_summary\n- If information is not found, use empty arrays or null values\n- Focus on Andhra Pradesh land document formats\n- Identify regional language terms and translate them to English"

/-- Python `text[:8000]`: the first 8000 code points. -/
def truncateText (text : String) : String := String.mk (text.data.take 8000)

/-- `ANALYSIS_PROMPT.format(text=text[:8000])` (line 168). -/
def build_prompt (text : String) : String :=
  PROMPT_PREFIX ++ truncateText text ++ PROMPT_SUFFIX

/-! ## The extraction client (`analyze_document_with_ai`, lines 165-219) -/

/-- System message of the first (structured-output mode) call. -/
def SYSTEM_PRIMARY : String :=
  "You are a legal document analysis expert. Always respond with valid JSON only."

/-- System message of the fallback (plain mode) call. -/
def SYSTEM_FALLBACK : String :=
  "You are a legal document analysis expert. Always respond with valid JSON only, no markdown, no code blocks."

/-- Oracle for the Groq generation service: the outcome of each of the
two `chat.completions.create` call sites, as a function of the
(systemInstruction, userPrompt) pair passed to it.  `.ok` is the
returned message content, `.error` the raised exception's message.
There are exactly two call sites in the source, so a run makes at most
two attempts. -/
structure GenService where
  attempt1 : String → String → Except String String
  attempt2 : String → String → Except String String

/-- A raised Python exception as the endpoint handlers see it:
a FastAPI `HTTPException` (status code and detail) or any other
exception (its message). -/
inductive PyExc where
  | http (status : Nat) (detail : String)
  | other (msg : String)
deriving DecidableEq

/-- Python `str(e)`: Starlette renders an `HTTPException` as
`"<status>: <detail>"`; any other exception renders as its message. -/
def excStr : PyExc → String
  | .http code detail => toString code ++ ": " ++ detail
  | .other msg => msg

/-- The try/except-fallback of lines 171-202: use the structured-mode
call's content; if that call raised (for any reason), use the fallback
call with the same prompt and the adjusted system message.  A fallback
failure propagates (to the enclosing `except Exception`). -/
def extractRaw (gen : GenService) (prompt : String) : Except String String :=
  match gen.attempt1 SYSTEM_PRIMARY prompt with
  | .ok t => .ok t
  | .error _ => gen.attempt2 SYSTEM_FALLBACK prompt

/-- `analyze_document_with_ai(text)`: build the prompt, extract, clean
and parse.  `json.JSONDecodeError` becomes HTTP 500
`"Failed to parse AI response as JSON: ..."`; any other exception (in
particular a failure of both Groq calls) becomes HTTP 500
`"AI analysis failed: ..."`. -/
def analyze_document_with_ai (gen : GenService) (text : String) : Except PyExc Json :=
  let prompt := build_prompt text
  match extractRaw gen prompt with
  | .error e => .error (.http 500 ("AI analysis failed: " ++ e))
  | .ok content =>
    match normalizeText content with
    | .ok j => .ok j
    | .error diag => .error (.http 500 ("Failed to parse AI response as JSON: " ++ diag))

/-! ## Persistence model (MongoDB collections used by `/api/analyze`) -/

/-- A record of the `users` collection (the fields this pipeline touches). -/
structure UserRec where
  id : String
  document_count : Int

/-- A record of the `documents` collection, as inserted by
`analyze_document` (lines 248-256). -/
structure DocRecord where
  user_id : String
  original_text : String
  document_type : String
  analysis_result : Json
  processed_at : String
  simplified_summary : Json
  legal_entities : Json

/-- The database: both collections. -/
structure DBState where
  users : List UserRec
  documents : List DocRecord

/-- `update_one({_id: uid}, {$inc: {document_count: 1}})`: increment the
first user with the matching id (no-op when absent, upsert is off). -/
def incFirst : List UserRec → String → List UserRec
  | [], _ => []
  | u :: rest, uid =>
    if u.id = uid then { u with document_count := u.document_count + 1 } :: rest
    else u :: incFirst rest uid

/-- The users-collection update of lines 259-262. -/
def incDocCount (st : DBState) (uid : String) : DBState :=
  { st with users := incFirst st.users uid }

/-- The `document_count` the database holds for a user (0 when absent). -/
def docCountOf (st : DBState) (uid : String) : Int :=
  ((st.users.find? (fun u => u.id == uid)).map UserRec.document_count).getD 0

/-- How many documents the database stores for a user. -/
def storedDocs (st : DBState) (uid : String) : Nat :=
  (st.documents.filter (fun d => d.user_id == uid)).length

/-! ## The request/response models and the non-streaming endpoint -/

/-- `DocumentRequest` (text plus document_type, default
`"land_document"`). -/
structure DocumentRequest where
  text : String
  document_type : String

/-- The `legal_entities` part of `DocumentResponse`.  Field values are
the extracted `Json` (pydantic's element-type validation is not
modelled; see the header comment). -/
structure LegalEntity where
  survey_numbers : Json
  ownership_details : Json
  land_extents : Json
  encumbrances : Json
  risks : Json
  missing_data : Json
  notable_clauses : Json

/-- `DocumentResponse` as returned by `/api/analyze`. -/
structure DocumentResponse where
  document_id : String
  simplified_summary : Json
  legal_entities : LegalEntity
  processed_at : String

/-- A JSON value the response model's `List[str]` fields accept. -/
def isStrList : Json → Bool
  | .arr xs => xs.all (fun j => match j with | .str _ => true | _ => false)
  | _ => false

/-- A JSON value the response model's `Dict` fields accept. -/
def isDict : Json → Bool
  | .obj _ => true
  | _ => false

/-- The `except Exception` of lines 284-285: any failure inside the
endpoint body is re-raised as HTTP 500
`"Document processing failed: " + str(e)`. -/
def wrapFail (e : PyExc) : PyExc :=
  .http 500 ("Document processing failed: " ++ excStr e)

/-- Message of the `AttributeError` raised by `x.get(...)` when `x` is
not a dict (possible when the model returned a non-object or a
non-object `legal_entities`). -/
def attrMsg (j : Json) : String :=
  let typeName :=
    match j with
    | .null => "NoneType"
    | .bool _ => "bool"
    | .num lit => if lit.contains '.' ∨ lit.contains 'e' ∨ lit.contains 'E' then "float" else "int"
    | .str _ => "str"
    | .arr _ => "list"
    | .obj _ => "dict"
  typeName ++ " object has no attribute get"

/-- `POST /api/analyze` (lines 237-285), with the Groq oracle, the
`insert_one` outcome oracle (`.ok` carries the new document id), the
timestamp, the authenticated user id and request explicit, and the
database threaded through.  Control flow of the source: run the
pipeline; build `document_record` (its `.get` calls raise on a
non-dict); `update_one` the user's `document_count`; `insert_one` the
record; build the `DocumentResponse` (its `.get` calls raise on a
non-dict `legal_entities`).  Any exception anywhere in the body is
wrapped by `wrapFail`; state changes already made stay. -/
def analyze_document (gen : GenService) (ins : Except String String) (now : String)
    (uid : String) (req : DocumentRequest) (st : DBState) :
    Except PyExc DocumentResponse × DBState :=
  match analyze_document_with_ai gen req.text with
  | .error e => (.error (wrapFail e), st)
  | .ok analysis_result =>
    match analysis_result with
    | .obj kvs =>
      let record : DocRecord :=
        { user_id := uid
          original_text := req.text
          document_type := req.document_type
          analysis_result := analysis_result
          processed_at := now
          simplified_summary := pyDictGet kvs "simplified_summary" (Json.arr [])
          legal_entities := pyDictGet kvs "legal_entities" (Json.obj []) }
      let st1 := incDocCount st uid
      match ins with
      | .error m => (.error (wrapFail (.other m)), st1)
      | .ok docId =>
        let st2 := { st1 with documents := st1.documents ++ [record] }
        match pyDictGet kvs "legal_entities" (Json.obj []) with
        | .obj lkvs =>
          (.ok
            { document_id := docId
              simplified_summary := pyDictGet kvs "simplified_summary" (Json.arr [])
              legal_entities :=
                { survey_numbers := pyDictGet lkvs "survey_numbers" (Json.arr [])
                  ownership_details := pyDictGet lkvs "ownership_details" (Json.obj [])
                  land_extents := pyDictGet lkvs "land_extents" (Json.obj [])
                  encumbrances := pyDictGet lkvs "encumbrances" (Json.arr [])
                  risks := pyDictGet lkvs "risks" (Json.arr [])
                  missing_data := pyDictGet lkvs "missing_data" (Json.arr [])
                  notable_clauses := pyDictGet lkvs "notable_clauses" (Json.arr []) }
              processed_at := now }, st2)
        | le => (.error (wrapFail (.other (attrMsg le))), st2)
    | _ => (.error (wrapFail (.other (attrMsg analysis_result))), st)

/-! ## The streaming endpoint (`simulate_progress` and
`analyze_document_stream`, lines 221-300) -/

/-- One synthetic progress record (the `step_data` dicts of
`simulate_progress`). -/
structure ProgressStep where
  step : String
  message : String
  progress : Nat
deriving DecidableEq

/-- The seven fixed synthetic steps of `simulate_progress`
(lines 223-231), in source order. -/
def progress_steps : List ProgressStep :=
  [⟨"reading", "Reading document...", 10⟩,
   ⟨"extracting", "Extracting legal entities...", 25⟩,
   ⟨"analyzing", "Analyzing ownership details...", 40⟩,
   ⟨"identifying", "Identifying survey numbers...", 55⟩,
   ⟨"checking", "Checking for encumbrances...", 70⟩,
   ⟨"assessing", "Assessing potential risks...", 85⟩,
   ⟨"generating", "Generating simplified summary...", 95⟩]

/-- One server-sent event of the stream (each is serialized as
`data: <json.dumps(...)>\n\n` on the wire; the framing carries no
further information and is not modelled). -/
inductive Event where
  | progress (s : ProgressStep)
  | complete (result : Json)
  | error (message : String)

/-- `GET /api/analyze/stream` (lines 287-300): the generator yields the
seven synthetic frames of `simulate_progress`, then runs the pipeline
and yields exactly one terminal frame: `complete` with the raw
`analysis_result` on success, `error` with `str(e)` on failure.  The
body makes no database call, so the state passes through unchanged. -/
def analyze_document_stream (gen : GenService) (text : String) (st : DBState) :
    List Event × DBState :=
  ((progress_steps.map Event.progress) ++
    (match analyze_document_with_ai gen text with
     | .ok r => [Event.complete r]
     | .error e => [Event.error (excStr e)]), st)

/-! ## Helper lemmas about `dropWhile`, `pyStripL` and the fence checks -/

theorem aux_dropWhile_len (q : Char → Bool) (l : List Char) :
    (l.dropWhile q).length ≤ l.length := by
  induction l with
  | nil => simp
  | cons a l ih =>
    by_cases h : q a
    · rw [List.dropWhile_cons, if_pos h]
      exact Nat.le_trans ih (Nat.le_succ _)
    · rw [List.dropWhile_cons, if_neg h]

theorem aux_dropWhile_idem (q : Char → Bool) (l : List Char) :
    (l.dropWhile q).dropWhile q = l.dropWhile q := by
  induction l with
  | nil => rfl
  | cons a l ih =>
    by_cases h : q a
    · rw [List.dropWhile_cons, if_pos h, ih]
    · rw [List.dropWhile_cons, if_neg h, List.dropWhile_cons, if_neg h]

theorem aux_dropWhile_take (q : Char → Bool) (Z : List Char) (k : Nat)
    (hZ : Z.dropWhile q = Z) : (Z.take k).dropWhile q = Z.take k := by
  match Z, k with
  | [], _ => simp
  | _ :: _, 0 => simp
  | a :: Z2, k + 1 =>
    have ha : q a = false := by
      by_contra hq
      have hq2 : q a = true := by simpa using hq
      rw [List.dropWhile_cons, if_pos hq2] at hZ
      have hlen := aux_dropWhile_len q Z2
      rw [hZ] at hlen
      simp at hlen
    rw [List.take_succ_cons, List.dropWhile_cons, if_neg (by simp [ha])]

theorem aux_dropWhile_drop (q : Char → Bool) (l : List Char) :
    ∃ j, l.dropWhile q = l.drop j := by
  induction l with
  | nil => exact ⟨0, rfl⟩
  | cons a l ih =>
    by_cases h : q a
    · obtain ⟨j, hj⟩ := ih
      exact ⟨j + 1, by rw [List.dropWhile_cons, if_pos h, hj]; rfl⟩
    · exact ⟨0, by rw [List.dropWhile_cons, if_neg h]; rfl⟩

theorem aux_pyStrip_idem (l : List Char) : pyStripL (pyStripL l) = pyStripL l := by
  obtain ⟨j, hj⟩ :=
    aux_dropWhile_drop Char.isWhitespace (l.dropWhile Char.isWhitespace).reverse
  have hB : ((l.dropWhile Char.isWhitespace).reverse.dropWhile Char.isWhitespace).reverse
      = (l.dropWhile Char.isWhitespace).take ((l.dropWhile Char.isWhitespace).length - j) := by
    rw [hj, List.reverse_drop, List.reverse_reverse, List.length_reverse]
  have h1 : (((l.dropWhile Char.isWhitespace).reverse.dropWhile Char.isWhitespace).reverse).dropWhile
        Char.isWhitespace
      = ((l.dropWhile Char.isWhitespace).reverse.dropWhile Char.isWhitespace).reverse := by
    rw [hB]
    exact aux_dropWhile_take Char.isWhitespace _ _ (aux_dropWhile_idem Char.isWhitespace l)
  show pyStripL (((l.dropWhile Char.isWhitespace).reverse.dropWhile Char.isWhitespace).reverse)
      = pyStripL l
  unfold pyStripL
  rw [h1, List.reverse_reverse, aux_dropWhile_idem]

theorem aux_startsWith_append (pre r : List Char) : startsWithL pre (pre ++ r) = true := by
  simp [startsWithL, List.take_left]

theorem aux_endsWith_append (x suf : List Char) : endsWithL suf (x ++ suf) = true := by
  have h : (x ++ suf).reverse.take suf.length = suf.reverse := by
    rw [List.reverse_append]
    have h2 := List.take_left suf.reverse x.reverse
    rwa [List.length_reverse] at h2
  simp [endsWithL, h]

theorem aux_dropRight_append (x suf : List Char) (n : Nat) (h : suf.length = n) :
    dropRightL n (x ++ suf) = x := by
  unfold dropRightL
  rw [List.length_append, h, Nat.add_sub_cancel]
  exact List.take_left x suf

theorem aux_starts_fjson_fence (t : List Char) (h : startsWithL FJSON t = true) :
    startsWithL FENCE t = true := by
  unfold startsWithL at h ⊢
  rw [show FJSON.length = 7 from rfl, beq_iff_eq] at h
  rw [show FENCE.length = 3 from rfl, beq_iff_eq]
  have h3 : (t.take 7).take 3 = t.take 3 := by rw [List.take_take]; norm_num
  rw [← h3, h]
  rfl

theorem aux_bq_not_ws : Char.isWhitespace backquote = false := by decide

theorem aux_dropWhile_fence (z : List Char) :
    List.dropWhile Char.isWhitespace (FENCE ++ z) = FENCE ++ z := by
  simp [FENCE, List.dropWhile_cons, aux_bq_not_ws]

theorem aux_fence_rev : FENCE.reverse = FENCE := rfl

theorem aux_pyStrip_fix (l : List Char)
    (h1 : l.dropWhile Char.isWhitespace = l)
    (h2 : l.reverse.dropWhile Char.isWhitespace = l.reverse) :
    pyStripL l = l := by
  unfold pyStripL
  rw [h1, h2, List.reverse_reverse]

theorem aux_pyStrip_fence_wrap (a mid : List Char) :
    pyStripL (FENCE ++ a ++ (mid ++ FENCE)) = FENCE ++ a ++ (mid ++ FENCE) := by
  apply aux_pyStrip_fix
  · rw [List.append_assoc]
    exact aux_dropWhile_fence _
  · simp only [List.reverse_append, aux_fence_rev, List.append_assoc]
    exact aux_dropWhile_fence _

theorem aux_pyStrip_fence_tail (r : List Char) :
    ∃ u, pyStripL (FENCE ++ r) = FENCE ++ u := by
  unfold pyStripL
  rw [aux_dropWhile_fence, List.reverse_append, aux_fence_rev, List.dropWhile_append]
  by_cases h : (r.reverse.dropWhile Char.isWhitespace).isEmpty
  · rw [if_pos h]
    refine ⟨[], ?_⟩
    rw [show List.dropWhile Char.isWhitespace FENCE = FENCE by
          have h2 := aux_dropWhile_fence []
          rwa [List.append_nil] at h2]
    rfl
  · rw [if_neg h]
    exact ⟨(r.reverse.dropWhile Char.isWhitespace).reverse,
      by rw [List.reverse_append, aux_fence_rev]⟩

theorem aux_take_append (l1 l2 : List Char) (n : Nat) :
    (l1 ++ l2).take (l1.length + n) = l1 ++ l2.take n := by
  simp [List.take_append_eq_append_take]

theorem aux_clean_unwrapped (p : List Char)
    (h1 : startsWithL FENCE (pyStripL p) = false)
    (h2 : endsWithL FENCE (pyStripL p) = false) :
    cleanResponse p = pyStripL p := by
  have hfj : startsWithL FJSON (pyStripL p) = false := by
    by_contra h
    have h' : startsWithL FJSON (pyStripL p) = true := by simpa using h
    rw [aux_starts_fjson_fence _ h'] at h1
    cases h1
  simp [cleanResponse, hfj, h1, h2, aux_pyStrip_idem]

theorem aux_clean_fjson_wrapped (p : List Char)
    (h1 : startsWithL FENCE (pyStripL p) = false)
    (h2 : endsWithL FENCE (pyStripL p) = false) :
    cleanResponse (FJSON ++ p ++ FENCE) = pyStripL p := by
  have heq : FJSON ++ (p ++ FENCE) = FENCE ++ ['j', 's', 'o', 'n'] ++ (p ++ FENCE) := by
    simp [FJSON, List.append_assoc]
  have hstrip : pyStripL (FJSON ++ (p ++ FENCE)) = FJSON ++ (p ++ FENCE) := by
    rw [heq]; exact aux_pyStrip_fence_wrap _ _
  have hfj : startsWithL FJSON (FJSON ++ (p ++ FENCE)) = true := aux_startsWith_append _ _
  have hdrop : (FJSON ++ (p ++ FENCE)).drop 7 = p ++ FENCE := by
    rw [show (7 : Nat) = FJSON.length from rfl]
    exact List.drop_left _ _
  by_cases hb : startsWithL FENCE (p ++ FENCE) = true
  · -- the inner payload itself begins the dropped-fence check: only
    -- possible for all-backtick payloads shorter than the fence or a
    -- payload that starts with a fence (excluded by h1)
    rcases p with _ | ⟨a, _ | ⟨b, _ | ⟨c, r⟩⟩⟩
    · decide
    · have ha : a = backquote := by
        unfold startsWithL at hb
        rw [beq_iff_eq] at hb
        simp [FENCE] at hb
        exact hb
      subst ha
      decide
    · have ha : a = backquote ∧ b = backquote := by
        unfold startsWithL at hb
        rw [beq_iff_eq] at hb
        simp [FENCE] at hb
        exact hb
      obtain ⟨ha1, ha2⟩ := ha
      subst ha1; subst ha2
      decide
    · exfalso
      have habc : a = backquote ∧ b = backquote ∧ c = backquote := by
        unfold startsWithL at hb
        rw [beq_iff_eq] at hb
        simp [FENCE] at hb
        exact hb
      obtain ⟨ha, hb2, hc⟩ := habc
      subst ha; subst hb2; subst hc
      obtain ⟨u, hu⟩ := aux_pyStrip_fence_tail r
      have hfs : startsWithL FENCE
          (pyStripL (backquote :: backquote :: backquote :: r)) = true := by
        have hr : backquote :: backquote :: backquote :: r = FENCE ++ r := by
          simp [FENCE]
        rw [hr, hu]
        exact aux_startsWith_append _ _
      rw [hfs] at h1
      cases h1
  · have hb' : startsWithL FENCE (p ++ FENCE) = false := by simpa using hb
    have hend : endsWithL FENCE (p ++ FENCE) = true := aux_endsWith_append p FENCE
    have hdr : dropRightL 3 (p ++ FENCE) = p := aux_dropRight_append p FENCE 3 rfl
    simp [cleanResponse, hstrip, hfj, hdrop, hb', hend, hdr]

theorem aux_clean_fence_wrapped (p : List Char)
    (h1 : startsWithL FENCE (pyStripL p) = false)
    (h2 : endsWithL FENCE (pyStripL p) = false)
    (h3 : startsWithL ['j', 's', 'o', 'n'] p = false) :
    cleanResponse (FENCE ++ p ++ FENCE) = pyStripL p := by
  have hstrip : pyStripL (FENCE ++ (p ++ FENCE)) = FENCE ++ (p ++ FENCE) := by
    have h := aux_pyStrip_fence_wrap p []
    rwa [List.nil_append, List.append_assoc] at h
  have hfj : startsWithL FJSON (FENCE ++ (p ++ FENCE)) = false := by
    by_contra h
    have h' : startsWithL FJSON (FENCE ++ (p ++ FENCE)) = true := by simpa using h
    unfold startsWithL at h'
    rw [beq_iff_eq] at h'
    rw [show FJSON.length = FENCE.length + 4 from rfl, aux_take_append] at h'
    have h4 : (p ++ FENCE).take 4 = ['j', 's', 'o', 'n'] :=
      List.append_cancel_left h'
    rcases p with _ | ⟨j0, _ | ⟨j1, _ | ⟨j2, _ | ⟨j3, r⟩⟩⟩⟩
    · exact absurd h4 (by decide)
    · have h5 := congrArg (List.drop 1) h4
      simp [FENCE] at h5
      exact absurd h5.1 (by decide)
    · have h5 := congrArg (List.drop 2) h4
      simp [FENCE] at h5
      exact absurd h5.1 (by decide)
    · have h5 := congrArg (List.drop 3) h4
      simp [FENCE] at h5
      exact absurd h5 (by decide)
    · have hp : startsWithL ['j', 's', 'o', 'n'] (j0 :: j1 :: j2 :: j3 :: r) = true := by
        unfold startsWithL
        rw [beq_iff_eq]
        simpa using h4
      rw [hp] at h3
      cases h3
  have hf2 : startsWithL FENCE (FENCE ++ (p ++ FENCE)) = true := aux_startsWith_append _ _
  have hdrop : (FENCE ++ (p ++ FENCE)).drop 3 = p ++ FENCE := by
    rw [show (3 : Nat) = FENCE.length from rfl]
    exact List.drop_left _ _
  have hend : endsWithL FENCE (p ++ FENCE) = true := aux_endsWith_append p FENCE
  have hdr : dropRightL 3 (p ++ FENCE) = p := aux_dropRight_append p FENCE 3 rfl
  simp [cleanResponse, hstrip, hfj, hf2, hdrop, hend, hdr]

theorem aux_incFirst_count (users : List UserRec) (uid : String) (u : UserRec)
    (hu : users.find? (fun v => v.id == uid) = some u) :
    ((incFirst users uid).find? (fun v => v.id == uid)).map UserRec.document_count =
      some (u.document_count + 1) := by
  induction users with
  | nil => cases hu
  | cons a rest ih =>
    by_cases h : a.id = uid
    · have hpa : (a.id == uid) = true := by simp [h]
      rw [List.find?_cons, hpa] at hu
      have hu2 : some a = some u := hu
      have hua : u = a := by cases hu2; rfl
      rw [hua]
      have hinc : incFirst (a :: rest) uid =
          { a with document_count := a.document_count + 1 } :: rest := by
        simp [incFirst, h]
      have hpa2 : (({ a with document_count := a.document_count + 1 } : UserRec).id == uid)
          = true := hpa
      rw [hinc, List.find?_cons, hpa2]
      rfl
    · have hpa : (a.id == uid) = false := by simp [h]
      rw [List.find?_cons, hpa] at hu
      have hu2 : List.find? (fun v => v.id == uid) rest = some u := hu
      have hinc : incFirst (a :: rest) uid = a :: incFirst rest uid := by
        simp [incFirst, h]
      rw [hinc, List.find?_cons, hpa]
      exact ih hu2

/-! ## The claims -/

/-- Claim C1 (amended; counterexample `C1_counterexample`): the
non-streaming analyze operation does backfill, per field — for every
successful run whose parsed response object has `legal_entities` absent
or present as a mapping (possibly partial), the delivered
`DocumentResponse` carries all seven legal-entity sub-fields, each
holding the parsed value when its key is present and its empty
list/mapping default when absent, and `simplified_summary` likewise
defaults to the empty sequence when absent (the second and third
conjuncts make the absent-key cases explicit).  The `isStrList`/`isDict`
hypotheses restrict to runs where the response model's unmodelled type
validation would also succeed; the defaults always satisfy them, so
absent fields impose nothing.  (The streaming operation, by contrast,
delivers the raw parsed object, which may lack these keys — see the
counterexample.) -/
theorem C1_backfill_nonstreaming (gen : GenService) (now uid docId : String)
    (req : DocumentRequest) (st : DBState) (kvs lkvs : List (String × Json))
    (hai : analyze_document_with_ai gen req.text = .ok (Json.obj kvs))
    (hle : pyDictGet kvs "legal_entities" (Json.obj []) = Json.obj lkvs)
    (hv0 : isStrList (pyDictGet kvs "simplified_summary" (Json.arr [])) = true)
    (hv1 : isStrList (pyDictGet lkvs "survey_numbers" (Json.arr [])) = true)
    (hv2 : isDict (pyDictGet lkvs "ownership_details" (Json.obj [])) = true)
    (hv3 : isDict (pyDictGet lkvs "land_extents" (Json.obj [])) = true)
    (hv4 : isStrList (pyDictGet lkvs "encumbrances" (Json.arr [])) = true)
    (hv5 : isStrList (pyDictGet lkvs "risks" (Json.arr [])) = true)
    (hv6 : isStrList (pyDictGet lkvs "missing_data" (Json.arr [])) = true)
    (hv7 : isStrList (pyDictGet lkvs "notable_clauses" (Json.arr [])) = true) :
    (analyze_document gen (.ok docId) now uid req st).1 =
      .ok { document_id := docId
            simplified_summary := pyDictGet kvs "simplified_summary" (Json.arr [])
            legal_entities :=
              { survey_numbers := pyDictGet lkvs "survey_numbers" (Json.arr [])
                ownership_details := pyDictGet lkvs "ownership_details" (Json.obj [])
                land_extents := pyDictGet lkvs "land_extents" (Json.obj [])
                encumbrances := pyDictGet lkvs "encumbrances" (Json.arr [])
                risks := pyDictGet lkvs "risks" (Json.arr [])
                missing_data := pyDictGet lkvs "missing_data" (Json.arr [])
                notable_clauses := pyDictGet lkvs "notable_clauses" (Json.arr []) }
            processed_at := now } ∧
    (∀ name d, getKeyLast lkvs name = none → pyDictGet lkvs name d = d) ∧
    (getKeyLast kvs "simplified_summary" = none →
      pyDictGet kvs "simplified_summary" (Json.arr []) = Json.arr []) := by
  refine ⟨?_, ?_, ?_⟩
  · simp only [analyze_document, hai, hle]
  · intro name d hnone
    simp [pyDictGet, hnone]
  · intro hnone
    simp [pyDictGet, hnone]

/-- Witness for `C1_backfill_nonstreaming` at a concrete run whose
model response holds a summary and a partial `legal_entities` mapping
(only `survey_numbers`): the present values pass through, the six
absent sub-fields are backfilled with their empty defaults. -/
theorem C1_backfill_nonstreaming_witness :
    (analyze_document
        ⟨fun _ _ => .ok "\x7b\"simplified_summary\": [\"Owner is Ramaiah\"], \"legal_entities\": \x7b\"survey_numbers\": [\"123\"]\x7d\x7d",
         fun _ _ => .ok ""⟩
        (.ok "id1") "now" "u1" ⟨"d", "land_document"⟩ ⟨[], []⟩).1 =
      .ok { document_id := "id1"
            simplified_summary := Json.arr [Json.str "Owner is Ramaiah"]
            legal_entities :=
              { survey_numbers := Json.arr [Json.str "123"]
                ownership_details := Json.obj []
                land_extents := Json.obj []
                encumbrances := Json.arr []
                risks := Json.arr []
                missing_data := Json.arr []
                notable_clauses := Json.arr [] }
            processed_at := "now" } :=
  (C1_backfill_nonstreaming
    ⟨fun _ _ => .ok "\x7b\"simplified_summary\": [\"Owner is Ramaiah\"], \"legal_entities\": \x7b\"survey_numbers\": [\"123\"]\x7d\x7d",
     fun _ _ => .ok ""⟩
    "now" "u1" "id1" ⟨"d", "land_document"⟩ ⟨[], []⟩
    [("simplified_summary", Json.arr [Json.str "Owner is Ramaiah"]),
     ("legal_entities", Json.obj [("survey_numbers", Json.arr [Json.str "123"])])]
    [("survey_numbers", Json.arr [Json.str "123"])]
    rfl rfl rfl rfl rfl rfl rfl rfl rfl rfl).1

/-- Counterexample to claim C1 as stated: when the model returns an
object holding only `simplified_summary`, the streaming operation's
terminal `complete` event delivers that object as-is — its
`legal_entities` key (and hence all seven sub-fields) is absent, so an
operation that delivers an analysis result to a caller does propagate a
partial structure. -/
theorem C1_counterexample :
    (analyze_document_stream
        ⟨fun _ _ => .ok "\x7b\"simplified_summary\": []\x7d", fun _ _ => .ok ""⟩
        "doc" ⟨[], []⟩).1 =
      progress_steps.map Event.progress ++
        [Event.complete (Json.obj [("simplified_summary", Json.arr [])])] ∧
    getKeyLast [("simplified_summary", Json.arr [])] "legal_entities" = none :=
  ⟨rfl, rfl⟩

/-- Claim C2 (amended; counterexample `C2_counterexample`): every
pipeline failure propagates to the non-streaming boundary as a failure
(no recovery, no default substitution, the database untouched), but
re-wrapped: the endpoint raises HTTP 500 with detail
`"Document processing failed: " + str(original)`, embedding — not
preserving — the original error. -/
theorem C2_wrapped_propagation (gen : GenService) (ins : Except String String)
    (now uid : String) (req : DocumentRequest) (st : DBState) (e : PyExc)
    (he : analyze_document_with_ai gen req.text = .error e) :
    analyze_document gen ins now uid req st =
      (.error (.http 500 ("Document processing failed: " ++ excStr e)), st) := by
  unfold analyze_document
  rw [he]
  rfl

/-- Witness for `C2_wrapped_propagation` at a concrete double failure. -/
theorem C2_wrapped_propagation_witness :
    analyze_document_with_ai ⟨fun _ _ => .error "a", fun _ _ => .error "b"⟩ "d" =
      .error (.http 500 "AI analysis failed: b") ∧
    analyze_document ⟨fun _ _ => .error "a", fun _ _ => .error "b"⟩ (.ok "id") "now" "u"
        ⟨"d", "land_document"⟩ ⟨[], []⟩ =
      (.error (.http 500 ("Document processing failed: " ++
        excStr (.http 500 "AI analysis failed: b"))), ⟨[], []⟩) :=
  ⟨rfl, C2_wrapped_propagation ⟨fun _ _ => .error "a", fun _ _ => .error "b"⟩ (.ok "id")
    "now" "u" ⟨"d", "land_document"⟩ ⟨[], []⟩ (.http 500 "AI analysis failed: b") rfl⟩

/-- Counterexample to claim C2 as stated: with both generation attempts
failing, the pipeline's error is HTTP 500 `"AI analysis failed: b"`,
but the non-streaming endpoint surfaces HTTP 500
`"Document processing failed: 500: AI analysis failed: b"` — a
re-wrapped error, not the same one. -/
theorem C2_counterexample :
    analyze_document_with_ai ⟨fun _ _ => .error "a", fun _ _ => .error "b"⟩ "d" =
      .error (PyExc.http 500 "AI analysis failed: b") ∧
    (analyze_document ⟨fun _ _ => .error "a", fun _ _ => .error "b"⟩ (.ok "id") "now" "u"
        ⟨"d", "land_document"⟩ ⟨[], []⟩).1 =
      .error (PyExc.http 500 "Document processing failed: 500: AI analysis failed: b") ∧
    PyExc.http 500 "Document processing failed: 500: AI analysis failed: b" ≠
      PyExc.http 500 "AI analysis failed: b" := by
  refine ⟨rfl, rfl, ?_⟩
  decide

/-- Claim C3 (confirmed): every streaming invocation emits exactly the
seven synthetic progress events, in the fixed order and with the fixed
percentages, followed by exactly one terminal event — `complete` with
the analysis result on success, `error` with the error message on
failure — and nothing after it. -/
theorem C3_stream_event_sequence (gen : GenService) (text : String) (st : DBState) :
    (analyze_document_stream gen text st).1 =
      [Event.progress ⟨"reading", "Reading document...", 10⟩,
       Event.progress ⟨"extracting", "Extracting legal entities...", 25⟩,
       Event.progress ⟨"analyzing", "Analyzing ownership details...", 40⟩,
       Event.progress ⟨"identifying", "Identifying survey numbers...", 55⟩,
       Event.progress ⟨"checking", "Checking for encumbrances...", 70⟩,
       Event.progress ⟨"assessing", "Assessing potential risks...", 85⟩,
       Event.progress ⟨"generating", "Generating simplified summary...", 95⟩] ++
      [match analyze_document_with_ai gen text with
       | .ok r => Event.complete r
       | .error e => Event.error (excStr e)] := by
  unfold analyze_document_stream progress_steps
  cases analyze_document_with_ai gen text <;> rfl

/-- Claim C4 (confirmed): if the first generation attempt fails, the
result does not depend on that failure in any way; if the fallback then
returns valid JSON, the pipeline returns the fallback's parsed result;
if both attempts fail, the failure surfaces as the upstream-error
wrapping of the second failure.  (`GenService` has exactly two call
sites, so no third attempt exists.) -/
theorem C4_fallback_policy (text : String) (e1 e1' e2 : String)
    (a2 : String → String → Except String String) (t2 : String) :
    (analyze_document_with_ai ⟨fun _ _ => .error e1, a2⟩ text =
      analyze_document_with_ai ⟨fun _ _ => .error e1', a2⟩ text) ∧
    (∀ j : Json, parseJsonL (cleanResponse t2.data) = .ok j →
      analyze_document_with_ai ⟨fun _ _ => .error e1, fun _ _ => .ok t2⟩ text = .ok j) ∧
    (analyze_document_with_ai ⟨fun _ _ => .error e1, fun _ _ => .error e2⟩ text =
      .error (.http 500 ("AI analysis failed: " ++ e2))) := by
  refine ⟨rfl, ?_, rfl⟩
  intro j hj
  simp [analyze_document_with_ai, extractRaw, normalizeText, hj]

/-- Witness for `C4_fallback_policy`: the fallback's valid JSON is
returned, the first failure invisible. -/
theorem C4_fallback_policy_witness :
    parseJsonL (cleanResponse "\x7b\x7d".data) = .ok (Json.obj []) ∧
    analyze_document_with_ai ⟨fun _ _ => .error "boom", fun _ _ => .ok "\x7b\x7d"⟩ "doc" =
      .ok (Json.obj []) :=
  ⟨rfl, (C4_fallback_policy "doc" "boom" "x" "y" (fun _ _ => .ok "\x7b\x7d") "\x7b\x7d").2.1
    (Json.obj []) rfl⟩

/-- Claim C5 (confirmed): whenever the extracted text cannot be parsed
as JSON after trimming and fence stripping, the pipeline fails with the
malformed-response error carrying the parse diagnostic — it never
returns a result. -/
theorem C5_malformed_response (gen : GenService) (text raw diag : String)
    (hraw : extractRaw gen (build_prompt text) = .ok raw)
    (hparse : parseJsonL (cleanResponse raw.data) = .error diag) :
    analyze_document_with_ai gen text =
      .error (.http 500 ("Failed to parse AI response as JSON: " ++ diag)) := by
  simp [analyze_document_with_ai, normalizeText, hraw, hparse]

/-- Witness for `C5_malformed_response` on concrete garbage text. -/
theorem C5_malformed_response_witness :
    extractRaw ⟨fun _ _ => .ok "not json", fun _ _ => .ok ""⟩ (build_prompt "d") =
      .ok "not json" ∧
    parseJsonL (cleanResponse "not json".data) = .error "Expecting value" ∧
    analyze_document_with_ai ⟨fun _ _ => .ok "not json", fun _ _ => .ok ""⟩ "d" =
      .error (.http 500 ("Failed to parse AI response as JSON: " ++ "Expecting value")) :=
  ⟨rfl, rfl, C5_malformed_response ⟨fun _ _ => .ok "not json", fun _ _ => .ok ""⟩ "d"
    "not json" "Expecting value" rfl rfl⟩

/-- Claim C6 (confirmed): the rendered prompt is exactly the template
prefix, the first 8000 characters of the input, and the template suffix
— so input of at most 8000 characters appears verbatim, longer input
contributes exactly its first 8000 characters and no more, and
truncation is total (never an error). -/
theorem C6_prompt_truncation (text : String) :
    (build_prompt text).data =
      PROMPT_PREFIX.data ++ text.data.take 8000 ++ PROMPT_SUFFIX.data ∧
    (text.data.length ≤ 8000 →
      ∃ l r, (build_prompt text).data = l ++ text.data ++ r) := by
  have hd : (build_prompt text).data =
      PROMPT_PREFIX.data ++ text.data.take 8000 ++ PROMPT_SUFFIX.data := by
    simp [build_prompt, truncateText, String.data_append]
  refine ⟨hd, fun h => ⟨PROMPT_PREFIX.data, PROMPT_SUFFIX.data, ?_⟩⟩
  rw [hd, List.take_of_length_le h]

/-- Witness for `C6_prompt_truncation` at a short input. -/
theorem C6_prompt_truncation_witness :
    "hi".data.length ≤ 8000 ∧
    ∃ l r, (build_prompt "hi").data = l ++ "hi".data ++ r :=
  ⟨by decide, (C6_prompt_truncation "hi").2 (by decide)⟩

/-- Claim C7 (confirmed): when both generation attempts fail, the
non-streaming endpoint fails (HTTP 500, detail embedding the upstream
`"AI analysis failed"` diagnostic) and the database is returned exactly
as it was — no document inserted, no user record modified. -/
theorem C7_no_persistence_on_upstream_failure (e1 e2 : String)
    (ins : Except String String) (now uid : String) (req : DocumentRequest)
    (st : DBState) :
    analyze_document ⟨fun _ _ => .error e1, fun _ _ => .error e2⟩ ins now uid req st =
      (.error (.http 500 ("Document processing failed: 500: AI analysis failed: " ++ e2)),
        st) :=
  rfl

/-- Claim C8 (amended; counterexample `C8_counterexample`): fence
wrapping is lossless for every payload that does not itself look
fence-wrapped — whenever the trimmed payload neither starts nor ends
with a ``` marker, normalization of the ```json-wrapped (and, when the
payload does not begin with the letters `json`, of the bare ```-wrapped)
text equals normalization of the payload. -/
theorem C8_fence_stripping_lossless (p : String)
    (h1 : startsWithL FENCE (pyStripL p.data) = false)
    (h2 : endsWithL FENCE (pyStripL p.data) = false) :
    normalizeText ("```json" ++ p ++ "```") = normalizeText p ∧
    (startsWithL ['j', 's', 'o', 'n'] p.data = false →
      normalizeText ("```" ++ p ++ "```") = normalizeText p) := by
  have hd1 : ("```json" ++ p ++ "```").data = FJSON ++ p.data ++ FENCE := by
    rw [String.data_append, String.data_append]
    rfl
  have hd2 : ("```" ++ p ++ "```").data = FENCE ++ p.data ++ FENCE := by
    rw [String.data_append, String.data_append]
    rfl
  constructor
  · unfold normalizeText
    rw [hd1, aux_clean_fjson_wrapped p.data h1 h2, aux_clean_unwrapped p.data h1 h2]
  · intro h3
    unfold normalizeText
    rw [hd2, aux_clean_fence_wrapped p.data h1 h2 h3, aux_clean_unwrapped p.data h1 h2]

/-- Witness for `C8_fence_stripping_lossless` at the payload `{}`. -/
theorem C8_fence_stripping_lossless_witness :
    startsWithL FENCE (pyStripL "\x7b\x7d".data) = false ∧
    endsWithL FENCE (pyStripL "\x7b\x7d".data) = false ∧
    (normalizeText ("```json" ++ "\x7b\x7d" ++ "```") = normalizeText "\x7b\x7d" ∧
      (startsWithL ['j', 's', 'o', 'n'] "\x7b\x7d".data = false →
        normalizeText ("```" ++ "\x7b\x7d" ++ "```") = normalizeText "\x7b\x7d")) :=
  ⟨by decide, by decide, C8_fence_stripping_lossless "\x7b\x7d" (by decide) (by decide)⟩

/-- Counterexample to claim C8 as stated: for the payload
```` ```json {} ````, normalization of the unwrapped payload succeeds
(the object `{}`), but normalization of the same payload wrapped in a
leading ```` ```json ```` and a trailing ```` ``` ```` fails — wrapping
is not lossless for every payload. -/
theorem C8_counterexample :
    normalizeText ("```json" ++ "```json \x7b\x7d" ++ "```") = .error "Expecting value" ∧
    normalizeText "```json \x7b\x7d" = .ok (Json.obj []) ∧
    normalizeText ("```json" ++ "```json \x7b\x7d" ++ "```") ≠
      normalizeText "```json \x7b\x7d" := by
  refine ⟨rfl, rfl, ?_⟩
  intro h
  rw [show normalizeText ("```json" ++ "```json \x7b\x7d" ++ "```") =
        Except.error "Expecting value" from rfl,
      show normalizeText "```json \x7b\x7d" = Except.ok (Json.obj []) from rfl] at h
  exact Except.noConfusion h

/-- Claim C9 (confirmed): the streaming operation never writes to the
database (both collections pass through unchanged, success or failure),
and on success its terminal `complete` event carries exactly the
pipeline's raw result — no stored document id is attached. -/
theorem C9_stream_no_persistence (gen : GenService) (text : String) (st : DBState) :
    (analyze_document_stream gen text st).2 = st ∧
    (∀ r : Json, analyze_document_with_ai gen text = .ok r →
      (analyze_document_stream gen text st).1 =
        progress_steps.map Event.progress ++ [Event.complete r]) := by
  refine ⟨rfl, fun r hr => ?_⟩
  simp [analyze_document_stream, hr]

/-- Witness for `C9_stream_no_persistence` at a successful concrete run. -/
theorem C9_stream_no_persistence_witness :
    analyze_document_with_ai ⟨fun _ _ => .ok "\x7b\x7d", fun _ _ => .ok ""⟩ "d" =
      .ok (Json.obj []) ∧
    (analyze_document_stream ⟨fun _ _ => .ok "\x7b\x7d", fun _ _ => .ok ""⟩ "d"
        ⟨[], []⟩).1 =
      progress_steps.map Event.progress ++ [Event.complete (Json.obj [])] :=
  ⟨rfl, (C9_stream_no_persistence ⟨fun _ _ => .ok "\x7b\x7d", fun _ _ => .ok ""⟩ "d"
    ⟨[], []⟩).2 (Json.obj []) rfl⟩

/-- Claim C10 (confirmed): in the non-streaming endpoint the user's
`document_count` is incremented before `insert_one`; when the insert
then fails, the endpoint reports the wrapped error, the documents
collection is unchanged, and the increment stands — so whenever the
counter initially equals the number of stored documents, it afterwards
exceeds it by one. -/
theorem C10_increment_not_reverted (gen : GenService) (now uid : String)
    (req : DocumentRequest) (st : DBState) (m : String) (kvs : List (String × Json))
    (u : UserRec)
    (hai : analyze_document_with_ai gen req.text = .ok (Json.obj kvs))
    (hu : st.users.find? (fun v => v.id == uid) = some u) :
    (analyze_document gen (.error m) now uid req st).1 =
      .error (.http 500 ("Document processing failed: " ++ m)) ∧
    (analyze_document gen (.error m) now uid req st).2.documents = st.documents ∧
    docCountOf (analyze_document gen (.error m) now uid req st).2 uid =
      docCountOf st uid + 1 ∧
    (docCountOf st uid = (storedDocs st uid : Int) →
      docCountOf (analyze_document gen (.error m) now uid req st).2 uid =
        (storedDocs (analyze_document gen (.error m) now uid req st).2 uid : Int) + 1) := by
  have hout : analyze_document gen (.error m) now uid req st =
      (.error (.http 500 ("Document processing failed: " ++ m)), incDocCount st uid) := by
    unfold analyze_document
    rw [hai]
    rfl
  have hcount : docCountOf (incDocCount st uid) uid = docCountOf st uid + 1 := by
    unfold docCountOf incDocCount
    rw [aux_incFirst_count st.users uid u hu]
    simp [hu]
  have hdocs : (incDocCount st uid).documents = st.documents := rfl
  have hstored : storedDocs (incDocCount st uid) uid = storedDocs st uid := rfl
  refine ⟨by rw [hout], by rw [hout]; exact hdocs, by rw [hout]; exact hcount,
    fun hinv => ?_⟩
  rw [hout]
  show docCountOf (incDocCount st uid) uid = (storedDocs (incDocCount st uid) uid : Int) + 1
  rw [hcount, hstored, hinv]

/-- Witness for `C10_increment_not_reverted`: one user with
`document_count = 0` and no documents; after the failed insert the
counter is 1 while the documents collection is still empty. -/
theorem C10_increment_not_reverted_witness :
    (analyze_document ⟨fun _ _ => .ok "\x7b\x7d", fun _ _ => .ok ""⟩ (.error "db down")
        "now" "u1" ⟨"d", "land_document"⟩ ⟨[⟨"u1", 0⟩], []⟩).1 =
      .error (.http 500 ("Document processing failed: " ++ "db down")) ∧
    docCountOf (analyze_document ⟨fun _ _ => .ok "\x7b\x7d", fun _ _ => .ok ""⟩
        (.error "db down") "now" "u1" ⟨"d", "land_document"⟩ ⟨[⟨"u1", 0⟩], []⟩).2 "u1" =
      docCountOf ⟨[⟨"u1", 0⟩], []⟩ "u1" + 1 :=
  ⟨(C10_increment_not_reverted ⟨fun _ _ => .ok "\x7b\x7d", fun _ _ => .ok ""⟩ "now" "u1"
      ⟨"d", "land_document"⟩ ⟨[⟨"u1", 0⟩], []⟩ "db down" [] ⟨"u1", 0⟩ rfl rfl).1,
   (C10_increment_not_reverted ⟨fun _ _ => .ok "\x7b\x7d", fun _ _ => .ok ""⟩ "now" "u1"
      ⟨"d", "land_document"⟩ ⟨[⟨"u1", 0⟩], []⟩ "db down" [] ⟨"u1", 0⟩ rfl rfl).2.2.1⟩
